import Mathlib

/-
Verification development for the `transcribe_faster_whisper.py` pipeline
(download → audio extraction → transcription → JSON emission).

The script is embedded shallowly:
- Python floats are modelled as rationals (ℚ); the script only subtracts,
  compares and clamps timestamps, and all claims use exactly representable
  values, so the idealisation is exact on every input considered here.
- The external collaborators (the HTTP endpoint via `requests`, the ffmpeg
  subprocess, the faster-whisper model) are oracles supplied in a `World`
  record; the control flow and data transformations of the script are
  translated line by line.
- `raise SystemExit(msg)` is modelled as the failure arm of the run outcome
  carrying `msg` as the process termination message (Python exits with
  status 1 and prints the message, writing nothing to stdout).
- `tempfile.TemporaryDirectory` is modelled as a bracketing combinator that
  creates the scratch directory, runs the body, and removes the directory
  and its contents whatever the body returned, mirroring the context
  manager running its cleanup on every code path.
-/

namespace TLDW

/-- A JSON value, used to model the documents the script builds with
`json.dumps` / `json.dump` (objects keep field insertion order, as Python
dicts do). -/
inductive Json where
  | str : String → Json
  | num : ℚ → Json
  | arr : List Json → Json
  | obj : List (String × Json) → Json

/-- Top-level keys of a JSON object, in insertion order; `[]` for
non-objects. -/
def Json.topKeys : Json → List String
  | .obj fields => fields.map Prod.fst
  | _ => []

/-- Python `str.strip()`: remove leading and trailing whitespace (restricted
to the ASCII whitespace the claims exercise). -/
def pyStrip (s : String) : String :=
  String.mk (((s.data.dropWhile Char.isWhitespace).reverse.dropWhile
    Char.isWhitespace).reverse)

/-- Python `x or d` on an optional float: `None` and `0.0` are falsy, any
other float is returned unchanged.  This is the coalescing used at
`float(segment.start or 0.0)` and `float(segment.end or start)`. -/
def pyOr (x : Option ℚ) (d : ℚ) : ℚ :=
  match x with
  | none => d
  | some v => if v = 0 then d else v

/-- Python `max(a, b)` on two floats, written with an executable comparison
so concrete runs reduce in the kernel. -/
def pyMax (a b : ℚ) : ℚ :=
  if a ≤ b then b else a

theorem pyMax_eq_max (a b : ℚ) : pyMax a b = max a b := by
  unfold pyMax
  split <;> rename_i h
  · exact (max_eq_right h).symm
  · exact (max_eq_left (le_of_not_le h)).symm

/-- A raw segment as yielded by the speech model: `text`, `start` and `end`
may each be absent (`None`). -/
structure RawSegment where
  text : Option String
  start : Option ℚ
  end_ : Option ℚ
deriving DecidableEq

/-- An emitted segment: the dict `{"text": ..., "start": ..., "duration": ...}`
appended to `result_segments`. -/
structure Segment where
  text : String
  start : ℚ
  duration : ℚ
deriving DecidableEq

/-- The JSON object serialised for one emitted segment. -/
def Segment.toJson (s : Segment) : Json :=
  .obj [("text", .str s.text), ("start", .num s.start), ("duration", .num s.duration)]

/-- The per-segment loop of `transcribe_audio` (lines 93–106): trim the text
and skip the segment if the result is empty; otherwise coalesce `start` and
`end` with Python `or`, clamp the duration at zero, and append
`{text, start, duration}` in emission order. -/
def transcribe_audio : List RawSegment → List Segment
  | [] => []
  | seg :: rest =>
    let text := pyStrip (seg.text.getD "")
    if text = "" then
      transcribe_audio rest
    else
      let start := pyOr seg.start 0
      let end_ := pyOr seg.end_ start
      let duration := pyMax 0 (end_ - start)
      { text := text, start := start, duration := duration } :: transcribe_audio rest

/-- The segment transform exactly as the claim words it: start is the
start of the model (0.0 when absent), end defaults to start only when absent,
and duration is `max 0 (end - start)`.  Differs from the code when the
model reports `end = 0.0`, which the Python `or` also treats as absent. -/
def claimSegments : List RawSegment → List Segment
  | [] => []
  | seg :: rest =>
    let text := pyStrip (seg.text.getD "")
    if text = "" then
      claimSegments rest
    else
      let start := seg.start.getD 0
      let end_ := seg.end_.getD start
      let duration := pyMax 0 (end_ - start)
      { text := text, start := start, duration := duration } :: claimSegments rest

/-- The segment transform as the amended claim words it: identical to the
literal claim except that a reported `end` of exactly `0.0` (and likewise a
reported `start` of `0.0`) is coalesced away like an absent value, because
the Python `or` treats `0.0` as falsy. -/
def amendedClaimSegments : List RawSegment → List Segment
  | [] => []
  | seg :: rest =>
    let text := pyStrip (seg.text.getD "")
    if text = "" then
      amendedClaimSegments rest
    else
      let start := pyOr seg.start 0
      let end_ := pyOr seg.end_ start
      { text := text, start := start, duration := pyMax 0 (end_ - start) } ::
        amendedClaimSegments rest

/-- Result of a completed `subprocess.run(..., stdout=PIPE, stderr=PIPE)`:
the exit status of the child and its two captured streams. -/
structure ProcResult where
  returncode : Int
  stdout : String
  stderr : String

/-- The argv list built by `extract_audio` (lines 52–62):
`[ffmpeg_binary, "-y", "-i", input, "-ar", "16000", "-ac", "1", output]`. -/
def extract_audio_command (ffmpeg_binary input_path output_path : String) : List String :=
  [ffmpeg_binary, "-y", "-i", input_path, "-ar", "16000", "-ac", "1", output_path]

/-- `extract_audio` (lines 51–75): run the external tool on the fixed argv
with both streams captured (`check=False`, so a non-zero status does not
raise inside `subprocess.run`); on non-zero status raise
`RuntimeError("Failed to extract audio with ffmpeg", {"stdout": ..., "stderr": ...})`,
modelled as an error value carrying the message and the two captured
streams; on zero status return normally.  `run` is the subprocess oracle
mapping an argv list to the completed process. -/
def extract_audio (run : List String → ProcResult)
    (input_path output_path ffmpeg_binary : String) :
    Except (String × String × String) Unit :=
  let result := run (extract_audio_command ffmpeg_binary input_path output_path)
  if result.returncode ≠ 0 then
    .error ("Failed to extract audio with ffmpeg", result.stdout, result.stderr)
  else
    .ok ()

/-- The diagnostic string a 4xx/5xx response turns into: `str` of the
`requests.HTTPError` raised by `response.raise_for_status()`, which names
the status code.  Modelled from the documented behaviour of the external
`requests` collaborator. -/
def httpStatusErrorMessage (status : Nat) : String :=
  toString status ++
    (if status < 500 then " Client Error for url" else " Server Error for url")

/-- What the HTTP GET in `download_file` produced: a transport-level
exception (connection failure, timeout) before any response, or a final
response status code. -/
inductive HttpOutcome where
  | transportError : String → HttpOutcome
  | response : Nat → HttpOutcome

/-- `download_file` (lines 42–48): perform the GET (any transport error
propagates), call `raise_for_status()` — which raises exactly for 4xx/5xx
statuses, so no error-page body is ever written — and only then open the
destination and stream the body to it.  The result is the exception text
or unit; whether the destination file was created is reported by the
caller-side state update in `pipelineBody`. -/
def download_file (http : HttpOutcome) : Except String Unit :=
  match http with
  | .transportError e => .error e
  | .response status =>
    if 400 ≤ status ∧ status < 600 then
      .error (httpStatusErrorMessage status)
    else
      .ok ()

/-- `str(exc)` for the `RuntimeError` raised by `extract_audio`: Python
renders the argument tuple, embedding both captured streams verbatim. -/
def extractionFailureDetails (r : ProcResult) : String :=
  "(\x27Failed to extract audio with ffmpeg\x27, \x7b\x27stdout\x27: \x27" ++
    r.stdout ++ "\x27, \x27stderr\x27: \x27" ++ r.stderr ++ "\x27\x7d)"

/-- The JSON error document `{"error": ..., "details": ...}` built at each
per-stage `except` handler. -/
def errorDoc (error details : String) : Json :=
  .obj [("error", .str error), ("details", .str details)]

/-- The JSON success document `{"segments": [...]}` written to stdout at
the end of `main`. -/
def successDoc (segments : List Segment) : Json :=
  .obj [("segments", .arr (segments.map Segment.toJson))]

/-- The three external effects of the pipeline, in invocation order: the
HTTP download, the ffmpeg subprocess, the speech model. -/
inductive Stage where
  | download
  | ffmpeg
  | model
deriving DecidableEq

/-- Filesystem footprint of one run: the scratch directory and the two
transient files inside it. -/
structure FsState where
  tempDirExists : Bool
  videoFileExists : Bool
  audioFileExists : Bool
deriving DecidableEq

/-- The external collaborators of one run, fixed before the pipeline
starts: what the HTTP GET does, what the ffmpeg subprocess does, and what
model construction plus inference does (an exception text, or the raw
segment sequence). -/
structure World where
  http : HttpOutcome
  ffmpegRun : List String → ProcResult
  model : Except String (List RawSegment)

/-- Scratch-file names used inside the temporary directory
(`temp_path / "input_video"`, `temp_path / "audio.wav"`). -/
def videoFileName : String := "input_video"

/-- Name of the extracted-audio scratch file. -/
def audioFileName : String := "audio.wav"

/-- The body of the `with tempfile.TemporaryDirectory(...)` block in `main`
(lines 126–155): three stages in sequence, each wrapped in a `try/except`
that converts the exception of that stage into a raised `SystemExit`.
Returns the updated scratch state, either the `SystemExit` payload or the
collected segments, and the list of external effects actually invoked. -/
def pipelineBody (w : World) (fs : FsState) :
    FsState × Except Json (List Segment) × List Stage :=
  match download_file w.http with
  | .error e =>
    (fs, .error (errorDoc "Failed to download video" e), [Stage.download])
  | .ok _ =>
    let fs1 := { fs with videoFileExists := true }
    match extract_audio w.ffmpegRun videoFileName audioFileName "ffmpeg" with
    | .error _ =>
      (fs1,
       .error (errorDoc "Failed to extract audio"
         (extractionFailureDetails (w.ffmpegRun
           (extract_audio_command "ffmpeg" videoFileName audioFileName)))),
       [Stage.download, Stage.ffmpeg])
    | .ok _ =>
      let fs2 := { fs1 with audioFileExists := true }
      match w.model with
      | .error e =>
        (fs2, .error (errorDoc "Transcription failed" e),
         [Stage.download, Stage.ffmpeg, Stage.model])
      | .ok raws =>
        (fs2, .ok (transcribe_audio raws),
         [Stage.download, Stage.ffmpeg, Stage.model])

/-- `tempfile.TemporaryDirectory` as a bracket: create the scratch
directory, run the body, then remove the directory and everything in it —
the cleanup of the context manager runs no matter how the body finished
(normally or with the `SystemExit` the handlers raise). -/
def withTempDir {α : Type} (body : FsState → FsState × α) (fs : FsState) :
    FsState × α :=
  let fsIn := { fs with tempDirExists := true }
  let (_, r) := body fsIn
  ({ tempDirExists := false, videoFileExists := false, audioFileExists := false }, r)

/-- Observable outcome of one process run: exit status, the JSON document
written to stdout (if any), the `SystemExit` termination message (if any),
the external effects invoked, and the final scratch-filesystem state. -/
structure ProcessOutcome where
  exitCode : Nat
  stdoutDoc : Option Json
  termMessage : Option Json
  invoked : List Stage
  fsFinal : FsState

/-- `main` (lines 121–160) after argument parsing: run the pipeline inside
the temporary-directory bracket, then either let the `SystemExit` terminate
the process (exit status 1, message on stderr, nothing on stdout) or
`json.dump` the success document to stdout and return (exit status 0). -/
def mainRun (w : World) : ProcessOutcome :=
  let fs0 : FsState := ⟨false, false, false⟩
  let (fsFinal, r, invoked) := withTempDir (fun fs => pipelineBody w fs) fs0
  match r with
  | .error doc =>
    { exitCode := 1, stdoutDoc := none, termMessage := some doc,
      invoked := invoked, fsFinal := fsFinal }
  | .ok segments =>
    { exitCode := 0, stdoutDoc := some (successDoc segments), termMessage := none,
      invoked := invoked, fsFinal := fsFinal }

/-- The process environment as read by `os.getenv` at startup (lines
112–117).  The two numeric variables are modelled after the `int()` /
`float()` conversion applied to them; a malformed value makes the script
die during argument-parser construction, before any claim-relevant
behaviour. -/
structure Env where
  fasterWhisperModel : Option String
  fasterWhisperDevice : Option String
  fasterWhisperCompute : Option String
  fasterWhisperBeamSize : Option Int
  fasterWhisperTemperature : Option ℚ
  ffmpegBinary : Option String

/-- The command-line flags actually passed, `none` meaning the flag was
omitted so that `argparse` falls back to the declared default. -/
structure Args where
  videoUrl : Option String
  model : Option String
  device : Option String
  computeType : Option String
  beamSize : Option Int
  temperature : Option ℚ
  ffmpegBinary : Option String

/-- The immutable run configuration after `parser.parse_args()`. -/
structure Config where
  videoUrl : String
  model : String
  device : String
  computeType : String
  beamSize : Int
  temperature : ℚ
  ffmpegBinary : String
deriving DecidableEq

/-- Argument resolution in `main` (lines 110–119): `--video-url` is
`required=True` (argparse aborts when it is missing, modelled as `none`);
every other flag defaults to its environment variable when that is set and
to its literal default otherwise. -/
def resolveConfig (env : Env) (cli : Args) : Option Config :=
  match cli.videoUrl with
  | none => none
  | some url =>
    some
      { videoUrl := url
        model := cli.model.getD (env.fasterWhisperModel.getD "small")
        device := cli.device.getD (env.fasterWhisperDevice.getD "cpu")
        computeType := cli.computeType.getD (env.fasterWhisperCompute.getD "int8")
        beamSize := cli.beamSize.getD (env.fasterWhisperBeamSize.getD 5)
        temperature := cli.temperature.getD (env.fasterWhisperTemperature.getD 0)
        ffmpegBinary := cli.ffmpegBinary.getD (env.ffmpegBinary.getD "ffmpeg") }

/-- Abbreviation for the one argv the pipeline passes to the subprocess
oracle. -/
def pipelineCommand : List String :=
  extract_audio_command "ffmpeg" videoFileName audioFileName

theorem mainRun_download_error (w : World) (e : String)
    (h : download_file w.http = .error e) :
    mainRun w =
      { exitCode := 1, stdoutDoc := none,
        termMessage := some (errorDoc "Failed to download video" e),
        invoked := [Stage.download],
        fsFinal := ⟨false, false, false⟩ } := by
  simp [mainRun, withTempDir, pipelineBody, h]

theorem mainRun_extract_error (w : World)
    (h : download_file w.http = .ok ())
    (hrc : (w.ffmpegRun pipelineCommand).returncode ≠ 0) :
    mainRun w =
      { exitCode := 1, stdoutDoc := none,
        termMessage := some (errorDoc "Failed to extract audio"
          (extractionFailureDetails (w.ffmpegRun pipelineCommand))),
        invoked := [Stage.download, Stage.ffmpeg],
        fsFinal := ⟨false, false, false⟩ } := by
  simp only [pipelineCommand] at hrc
  simp [mainRun, withTempDir, pipelineBody, h, extract_audio, pipelineCommand, hrc]

theorem mainRun_model_error (w : World)
    (h : download_file w.http = .ok ())
    (hrc : (w.ffmpegRun pipelineCommand).returncode = 0)
    (e : String) (hm : w.model = .error e) :
    mainRun w =
      { exitCode := 1, stdoutDoc := none,
        termMessage := some (errorDoc "Transcription failed" e),
        invoked := [Stage.download, Stage.ffmpeg, Stage.model],
        fsFinal := ⟨false, false, false⟩ } := by
  simp only [pipelineCommand] at hrc
  simp [mainRun, withTempDir, pipelineBody, h, extract_audio, pipelineCommand, hrc, hm]

theorem mainRun_success (w : World)
    (h : download_file w.http = .ok ())
    (hrc : (w.ffmpegRun pipelineCommand).returncode = 0)
    (raws : List RawSegment) (hm : w.model = .ok raws) :
    mainRun w =
      { exitCode := 0, stdoutDoc := some (successDoc (transcribe_audio raws)),
        termMessage := none,
        invoked := [Stage.download, Stage.ffmpeg, Stage.model],
        fsFinal := ⟨false, false, false⟩ } := by
  simp only [pipelineCommand] at hrc
  simp [mainRun, withTempDir, pipelineBody, h, extract_audio, pipelineCommand, hrc, hm]

theorem download_file_not_ok_iff (http : HttpOutcome) :
    (∃ e, download_file http = .error e) ↔ download_file http ≠ .ok () := by
  cases h : download_file http with
  | error e => simp
  | ok u => cases u; simp

theorem mainRun_cases (w : World) :
    (∃ e, download_file w.http = .error e ∧
      mainRun w =
        { exitCode := 1, stdoutDoc := none,
          termMessage := some (errorDoc "Failed to download video" e),
          invoked := [Stage.download],
          fsFinal := ⟨false, false, false⟩ }) ∨
    (download_file w.http = .ok () ∧ (w.ffmpegRun pipelineCommand).returncode ≠ 0 ∧
      mainRun w =
        { exitCode := 1, stdoutDoc := none,
          termMessage := some (errorDoc "Failed to extract audio"
            (extractionFailureDetails (w.ffmpegRun pipelineCommand))),
          invoked := [Stage.download, Stage.ffmpeg],
          fsFinal := ⟨false, false, false⟩ }) ∨
    (∃ e, download_file w.http = .ok () ∧ (w.ffmpegRun pipelineCommand).returncode = 0 ∧
      w.model = .error e ∧
      mainRun w =
        { exitCode := 1, stdoutDoc := none,
          termMessage := some (errorDoc "Transcription failed" e),
          invoked := [Stage.download, Stage.ffmpeg, Stage.model],
          fsFinal := ⟨false, false, false⟩ }) ∨
    (∃ raws, download_file w.http = .ok () ∧ (w.ffmpegRun pipelineCommand).returncode = 0 ∧
      w.model = .ok raws ∧
      mainRun w =
        { exitCode := 0, stdoutDoc := some (successDoc (transcribe_audio raws)),
          termMessage := none,
          invoked := [Stage.download, Stage.ffmpeg, Stage.model],
          fsFinal := ⟨false, false, false⟩ }) := by
  cases hd : download_file w.http with
  | error e => exact Or.inl ⟨e, rfl, mainRun_download_error w e hd⟩
  | ok u =>
    cases u
    by_cases hrc : (w.ffmpegRun pipelineCommand).returncode = 0
    · cases hm : w.model with
      | error e =>
        exact Or.inr (Or.inr (Or.inl ⟨e, rfl, hrc, rfl, mainRun_model_error w hd hrc e hm⟩))
      | ok raws =>
        exact Or.inr (Or.inr (Or.inr ⟨raws, rfl, hrc, rfl, mainRun_success w hd hrc raws hm⟩))
    · exact Or.inr (Or.inl ⟨rfl, hrc, mainRun_extract_error w hd hrc⟩)

/-- C3: the pipeline runs download, extraction and transcription in strict
sequence with no retries — the set of invoked effects is always a prefix of
`[download, ffmpeg, model]` with no stage invoked twice; a download failure
leaves the ffmpeg subprocess and the model uninvoked, and an extraction
failure (non-zero exit status) leaves the model uninvoked. -/
theorem C3_stage_sequencing (w : World) :
    ((mainRun w).invoked = [Stage.download] ∨
      (mainRun w).invoked = [Stage.download, Stage.ffmpeg] ∨
      (mainRun w).invoked = [Stage.download, Stage.ffmpeg, Stage.model]) ∧
    (mainRun w).invoked.Nodup ∧
    (∀ e, download_file w.http = .error e →
      (mainRun w).invoked = [Stage.download]) ∧
    (download_file w.http = .ok () →
      (w.ffmpegRun pipelineCommand).returncode ≠ 0 →
      (mainRun w).invoked = [Stage.download, Stage.ffmpeg]) := by
  rcases mainRun_cases w with ⟨e, hd, hrun⟩ | ⟨hd, hrc, hrun⟩ |
    ⟨e, hd, hrc, hm, hrun⟩ | ⟨raws, hd, hrc, hm, hrun⟩ <;> rw [hrun]
  · exact ⟨Or.inl rfl, (by decide : List.Nodup [Stage.download]), fun _ _ => rfl,
      fun hok _ => Except.noConfusion (hd.symm.trans hok)⟩
  · exact ⟨Or.inr (Or.inl rfl),
      (by decide : List.Nodup [Stage.download, Stage.ffmpeg]),
      fun e' he' => Except.noConfusion (hd.symm.trans he'),
      fun _ _ => rfl⟩
  · exact ⟨Or.inr (Or.inr rfl),
      (by decide : List.Nodup [Stage.download, Stage.ffmpeg, Stage.model]),
      fun e' he' => Except.noConfusion (hd.symm.trans he'),
      fun _ hrc' => absurd hrc hrc'⟩
  · exact ⟨Or.inr (Or.inr rfl),
      (by decide : List.Nodup [Stage.download, Stage.ffmpeg, Stage.model]),
      fun e' he' => Except.noConfusion (hd.symm.trans he'),
      fun _ hrc' => absurd hrc hrc'⟩

/-- Witness for C3: a download answered with HTTP 404 invokes only the
download stage — neither ffmpeg nor the model runs. -/
theorem C3_stage_sequencing_witness :
    (mainRun { http := .response 404, ffmpegRun := fun _ => ⟨0, "", ""⟩,
               model := .ok [] }).invoked = [Stage.download] :=
  (C3_stage_sequencing
    { http := .response 404, ffmpegRun := fun _ => ⟨0, "", ""⟩,
      model := .ok [] }).2.2.1 (httpStatusErrorMessage 404) rfl

/-- C4: a run completing all three stages exits 0 and writes the JSON
success document to stdout; a failure at any stage — including any 4xx/5xx
HTTP status on the download, which `raise_for_status` turns into a failure
before any file is written — exits 1 with the JSON error document (stage
category plus the diagnostic of the exception) as the termination message. -/
theorem C4_exit_behavior (w : World) :
    (download_file w.http = .ok () →
      (w.ffmpegRun pipelineCommand).returncode = 0 →
      ∀ raws, w.model = .ok raws →
      (mainRun w).exitCode = 0 ∧
      (mainRun w).stdoutDoc = some (successDoc (transcribe_audio raws)) ∧
      (mainRun w).termMessage = none) ∧
    (∀ e, download_file w.http = .error e →
      (mainRun w).exitCode = 1 ∧ (mainRun w).stdoutDoc = none ∧
      (mainRun w).termMessage = some (errorDoc "Failed to download video" e)) ∧
    (download_file w.http = .ok () →
      (w.ffmpegRun pipelineCommand).returncode ≠ 0 →
      (mainRun w).exitCode = 1 ∧ (mainRun w).stdoutDoc = none ∧
      (mainRun w).termMessage = some (errorDoc "Failed to extract audio"
        (extractionFailureDetails (w.ffmpegRun pipelineCommand)))) ∧
    (download_file w.http = .ok () →
      (w.ffmpegRun pipelineCommand).returncode = 0 →
      ∀ e, w.model = .error e →
      (mainRun w).exitCode = 1 ∧ (mainRun w).stdoutDoc = none ∧
      (mainRun w).termMessage = some (errorDoc "Transcription failed" e)) ∧
    (∀ status, 400 ≤ status → status < 600 → w.http = .response status →
      (mainRun w).exitCode = 1 ∧ (mainRun w).stdoutDoc = none ∧
      (mainRun w).termMessage = some (errorDoc "Failed to download video"
        (httpStatusErrorMessage status))) := by
  refine ⟨?_, ?_, ?_, ?_, ?_⟩
  · intro hd hrc raws hm
    rw [mainRun_success w hd hrc raws hm]
    exact ⟨rfl, rfl, rfl⟩
  · intro e hd
    rw [mainRun_download_error w e hd]
    exact ⟨rfl, rfl, rfl⟩
  · intro hd hrc
    rw [mainRun_extract_error w hd hrc]
    exact ⟨rfl, rfl, rfl⟩
  · intro hd hrc e hm
    rw [mainRun_model_error w hd hrc e hm]
    exact ⟨rfl, rfl, rfl⟩
  · intro status h4 h6 hresp
    have hd : download_file w.http = .error (httpStatusErrorMessage status) := by
      rw [hresp]
      simp [download_file, h4, h6]
    rw [mainRun_download_error w _ hd]
    exact ⟨rfl, rfl, rfl⟩

/-- Witness for C4: a fully successful run over an empty transcription
exits 0 with the success document on stdout, and a 404 download exits 1
with the download-category error document as termination message. -/
theorem C4_exit_behavior_witness :
    ((mainRun { http := .response 200, ffmpegRun := fun _ => ⟨0, "out", "err"⟩,
                model := .ok [] }).exitCode = 0 ∧
      (mainRun { http := .response 200, ffmpegRun := fun _ => ⟨0, "out", "err"⟩,
                 model := .ok [] }).stdoutDoc = some (successDoc []) ∧
      (mainRun { http := .response 200, ffmpegRun := fun _ => ⟨0, "out", "err"⟩,
                 model := .ok [] }).termMessage = none) ∧
    (mainRun { http := .response 404, ffmpegRun := fun _ => ⟨0, "out", "err"⟩,
               model := .ok [] }).termMessage =
      some (errorDoc "Failed to download video" (httpStatusErrorMessage 404)) :=
  ⟨(C4_exit_behavior
      { http := .response 200, ffmpegRun := fun _ => ⟨0, "out", "err"⟩,
        model := .ok [] }).1 rfl rfl [] rfl,
   ((C4_exit_behavior
      { http := .response 404, ffmpegRun := fun _ => ⟨0, "out", "err"⟩,
        model := .ok [] }).2.2.2.2 404 (by decide) (by decide) rfl).2.2⟩

/-- C5: the emitted result document has exactly one of two shapes — on
success the single top-level key `segments` on stdout and no termination
message, on failure no stdout document and a termination message whose
top-level keys are exactly `error` and `details`. -/
theorem C5_result_document_shape (w : World) :
    ((mainRun w).stdoutDoc.map Json.topKeys = some ["segments"] ∧
      (mainRun w).termMessage = none) ∨
    ((mainRun w).stdoutDoc = none ∧
      (mainRun w).termMessage.map Json.topKeys = some ["error", "details"]) := by
  rcases mainRun_cases w with ⟨e, hd, hrun⟩ | ⟨hd, hrc, hrun⟩ |
    ⟨e, hd, hrc, hm, hrun⟩ | ⟨raws, hd, hrc, hm, hrun⟩ <;> rw [hrun]
  · exact Or.inr ⟨rfl, rfl⟩
  · exact Or.inr ⟨rfl, rfl⟩
  · exact Or.inr ⟨rfl, rfl⟩
  · exact Or.inl ⟨rfl, rfl⟩

/-- C6: the scratch workspace directory and both transient files inside it
are gone after the run terminates, whichever of the four exit paths
(success or a failure at any of the three stages) was taken. -/
theorem C6_scratch_workspace_removed (w : World) :
    (mainRun w).fsFinal.tempDirExists = false ∧
    (mainRun w).fsFinal.videoFileExists = false ∧
    (mainRun w).fsFinal.audioFileExists = false := by
  rcases mainRun_cases w with ⟨e, hd, hrun⟩ | ⟨hd, hrc, hrun⟩ |
    ⟨e, hd, hrc, hm, hrun⟩ | ⟨raws, hd, hrc, hm, hrun⟩ <;> rw [hrun] <;>
    exact ⟨rfl, rfl, rfl⟩

/-- C1 counterexample: on the raw segment `("a", start = -1.0, end = 0.0)`
the code coalesces the reported `end = 0.0` away (Python `or` treats `0.0`
as falsy), giving `end = start = -1` and duration `0`, while the claimed
rule — end defaults to start only when absent — gives duration
`max 0 (0 - (-1)) = 1`. -/
theorem C1_counterexample :
    transcribe_audio [⟨some "a", some (-1), some 0⟩] =
      [{ text := "a", start := -1, duration := 0 }] ∧
    claimSegments [⟨some "a", some (-1), some 0⟩] =
      [{ text := "a", start := -1, duration := 1 }] ∧
    transcribe_audio [⟨some "a", some (-1), some 0⟩] ≠
      claimSegments [⟨some "a", some (-1), some 0⟩] := by
  refine ⟨?_, ?_, ?_⟩ <;>
    norm_num +decide [transcribe_audio, claimSegments, pyStrip, pyOr, pyMax,
      List.dropWhile]

/-- C1 amended: for every raw segment the transcriber trims the text, skips
the segment when the trimmed text is empty, and otherwise appends
`{text, start, duration}` in emission order with start the model-reported start
(`0.0` substituted when absent) and end defaulting to start when absent
**or when reported as exactly `0.0`** (Python falsy coalescing), duration
being `max 0 (end - start)`; on the two raw segments
`("Hello world", 0.0, 2.5)` and `("  ", 2.5, 3.0)` the result is exactly
`[{"Hello world", 0.0, 2.5}]`. -/
theorem C1_amended_segment_rule :
    (∀ raws, transcribe_audio raws = amendedClaimSegments raws) ∧
    transcribe_audio
        [⟨some "Hello world", some 0, some (5/2)⟩, ⟨some "  ", some (5/2), some 3⟩] =
      [{ text := "Hello world", start := 0, duration := 5/2 }] := by
  constructor
  · intro raws
    induction raws with
    | nil => rfl
    | cons r rest ih =>
      simp only [transcribe_audio, amendedClaimSegments]
      split <;> simp [ih]
  · norm_num +decide [transcribe_audio, pyStrip, pyOr, pyMax, List.dropWhile]

theorem pyMax_zero_nonneg (a : ℚ) : 0 ≤ pyMax 0 a := by
  rw [pyMax_eq_max]
  exact le_max_left 0 a

theorem pyOr_zero_nonneg (x : Option ℚ) (h : ∀ v, x = some v → 0 ≤ v) :
    0 ≤ pyOr x 0 := by
  cases x with
  | none => exact le_refl 0
  | some v =>
    simp only [pyOr]
    split
    · exact le_refl 0
    · exact h v rfl

/-- C2 counterexample: the model-supplied start is passed through
unvalidated, so the raw segment `("a", start = -1.0, end = 2.0)` is emitted
with `start = -1 < 0`, refuting `start >= 0` for arbitrary model output. -/
theorem C2_counterexample :
    (transcribe_audio [⟨some "a", some (-1), some 2⟩]).map Segment.start =
      [(-1 : ℚ)] ∧
    ¬ (0 : ℚ) ≤ (-1 : ℚ) := by
  constructor
  · norm_num +decide [transcribe_audio, pyStrip, pyOr, pyMax, List.dropWhile]
  · norm_num

/-- C2 amended: every emitted segment has `duration >= 0` unconditionally;
`start` is the model-reported start (`0.0` when absent or reported as
`0.0`) passed through unvalidated, so `start >= 0` holds provided every
start the model reports is non-negative. -/
theorem C2_amended_nonneg (raws : List RawSegment) (s : Segment)
    (hs : s ∈ transcribe_audio raws) :
    0 ≤ s.duration ∧
      ((∀ r ∈ raws, ∀ v, r.start = some v → 0 ≤ v) → 0 ≤ s.start) := by
  induction raws with
  | nil => simp [transcribe_audio] at hs
  | cons r rest ih =>
    simp only [transcribe_audio] at hs
    by_cases h : pyStrip (r.text.getD "") = ""
    · rw [if_pos h] at hs
      obtain ⟨hdur, hst⟩ := ih hs
      exact ⟨hdur, fun hall => hst fun r' hr' v hv =>
        hall r' (List.mem_cons_of_mem _ hr') v hv⟩
    · rw [if_neg h] at hs
      rcases List.mem_cons.mp hs with heq | hmem
      · subst heq
        refine ⟨pyMax_zero_nonneg _, fun hall => ?_⟩
        exact pyOr_zero_nonneg r.start fun v hv =>
          hall r (List.mem_cons_self _ _) v hv
      · obtain ⟨hdur, hst⟩ := ih hmem
        exact ⟨hdur, fun hall => hst fun r' hr' v hv =>
          hall r' (List.mem_cons_of_mem _ hr') v hv⟩

/-- Witness for the amended C2: the raw segment `("a", 1.0, 3.0)` is
emitted as `{"a", 1, 2}` with non-negative duration and start. -/
theorem C2_amended_nonneg_witness :
    0 ≤ (Segment.mk "a" 1 2).duration ∧ 0 ≤ (Segment.mk "a" 1 2).start := by
  have h := C2_amended_nonneg [⟨some "a", some 1, some 3⟩] ⟨"a", 1, 2⟩
    (by norm_num +decide [transcribe_audio, pyStrip, pyOr, pyMax, List.dropWhile])
  refine ⟨h.1, h.2 ?_⟩
  rintro r hr v hv
  rcases List.mem_singleton.mp hr with rfl
  rw [show (RawSegment.mk (some "a") (some 1) (some 3)).start = some 1
    from rfl] at hv
  rcases Option.some.inj hv with rfl
  norm_num

/-- C10: bytes reach stdout only on the success path — whenever a stage
fails (non-zero exit) stdout stays empty and the error document travels in
the termination message instead. -/
theorem C10_stdout_only_on_success (w : World) :
    ((mainRun w).stdoutDoc ≠ none →
      (mainRun w).exitCode = 0 ∧ (mainRun w).termMessage = none) ∧
    ((mainRun w).exitCode ≠ 0 → (mainRun w).stdoutDoc = none) := by
  rcases mainRun_cases w with ⟨e, hd, hrun⟩ | ⟨hd, hrc, hrun⟩ |
    ⟨e, hd, hrc, hm, hrun⟩ | ⟨raws, hd, hrc, hm, hrun⟩ <;> rw [hrun]
  · exact ⟨fun h => absurd rfl h, fun _ => rfl⟩
  · exact ⟨fun h => absurd rfl h, fun _ => rfl⟩
  · exact ⟨fun h => absurd rfl h, fun _ => rfl⟩
  · exact ⟨fun _ => ⟨rfl, rfl⟩, fun h => absurd rfl h⟩

/-- Witness for C10: a run whose download dies with a transport error exits
non-zero and writes nothing to stdout. -/
theorem C10_stdout_only_on_success_witness :
    (mainRun { http := .transportError "connection refused",
               ffmpegRun := fun _ => ⟨0, "", ""⟩,
               model := .ok [] }).stdoutDoc = none :=
  (C10_stdout_only_on_success
    { http := .transportError "connection refused",
      ffmpegRun := fun _ => ⟨0, "", ""⟩,
      model := .ok [] }).2 (fun h => Nat.noConfusion h)

theorem transcribe_audio_all_blank (raws : List RawSegment)
    (h : ∀ r ∈ raws, pyStrip (r.text.getD "") = "") :
    transcribe_audio raws = [] := by
  induction raws with
  | nil => rfl
  | cons r rest ih =>
    simp only [transcribe_audio]
    rw [if_pos (h r (List.mem_cons_self _ _))]
    exact ih fun r' hr' => h r' (List.mem_cons_of_mem _ hr')

/-- C9: when the model yields no segments, or every raw segment is dropped
because its trimmed text is empty, the run still succeeds: exit status 0
and `{"segments": []}` on stdout, not an error document. -/
theorem C9_empty_transcription_success (w : World) (raws : List RawSegment)
    (hd : download_file w.http = .ok ())
    (hrc : (w.ffmpegRun pipelineCommand).returncode = 0)
    (hm : w.model = .ok raws)
    (hblank : ∀ r ∈ raws, pyStrip (r.text.getD "") = "") :
    (mainRun w).exitCode = 0 ∧
    (mainRun w).stdoutDoc = some (Json.obj [("segments", Json.arr [])]) ∧
    (mainRun w).termMessage = none := by
  rw [mainRun_success w hd hrc raws hm, transcribe_audio_all_blank raws hblank]
  exact ⟨rfl, rfl, rfl⟩

/-- Witness for C9: a run whose model yields one all-whitespace segment
exits 0 with an empty segment list on stdout. -/
theorem C9_empty_transcription_success_witness :
    (mainRun { http := .response 200, ffmpegRun := fun _ => ⟨0, "", ""⟩,
               model := .ok [⟨some "  ", some 0, some 1⟩] }).exitCode = 0 ∧
    (mainRun { http := .response 200, ffmpegRun := fun _ => ⟨0, "", ""⟩,
               model := .ok [⟨some "  ", some 0, some 1⟩] }).stdoutDoc =
      some (Json.obj [("segments", Json.arr [])]) :=
  have h := C9_empty_transcription_success
    { http := .response 200, ffmpegRun := fun _ => ⟨0, "", ""⟩,
      model := .ok [⟨some "  ", some 0, some 1⟩] }
    [⟨some "  ", some 0, some 1⟩] rfl rfl rfl (by decide)
  ⟨h.1, h.2.1⟩

/-- C7: the audio extractor invokes the external tool with argv exactly
`[binary, "-y", "-i", input, "-ar", "16000", "-ac", "1", output]`, treats a
zero exit status as success, and turns a non-zero exit status into an
extraction failure whose payload carries both captured streams verbatim —
the output file itself is never consulted. -/
theorem C7_extract_audio_contract (run : List String → ProcResult)
    (input_path output_path ffmpeg_binary : String) :
    extract_audio_command ffmpeg_binary input_path output_path =
      [ffmpeg_binary, "-y", "-i", input_path, "-ar", "16000", "-ac", "1",
        output_path] ∧
    ((run (extract_audio_command ffmpeg_binary input_path output_path)).returncode
        = 0 →
      extract_audio run input_path output_path ffmpeg_binary = .ok ()) ∧
    ((run (extract_audio_command ffmpeg_binary input_path output_path)).returncode
        ≠ 0 →
      extract_audio run input_path output_path ffmpeg_binary =
        .error ("Failed to extract audio with ffmpeg",
          (run (extract_audio_command ffmpeg_binary input_path output_path)).stdout,
          (run (extract_audio_command ffmpeg_binary input_path output_path)).stderr)) := by
  refine ⟨rfl, ?_, ?_⟩
  · intro h
    simp [extract_audio, h]
  · intro h
    simp [extract_audio, h]

/-- Witness for C7: a tool exiting with status 1 yields an extraction
failure carrying its captured stdout and stderr. -/
theorem C7_extract_audio_contract_witness :
    extract_audio (fun _ => ⟨1, "frame info", "conversion error"⟩)
        "input_video" "audio.wav" "ffmpeg" =
      .error ("Failed to extract audio with ffmpeg", "frame info",
        "conversion error") :=
  (C7_extract_audio_contract (fun _ => ⟨1, "frame info", "conversion error"⟩)
      "input_video" "audio.wav" "ffmpeg").2.2 (by decide)

/-- C8: run configuration is resolved once at startup — `--video-url` is
required (resolution fails without it), and each remaining flag falls back
to its environment variable when set and to its literal default otherwise:
model "small", device "cpu", compute type "int8", beam size 5, temperature
0.0, media-tool path "ffmpeg". -/
theorem C8_config_resolution (env : Env) (cli : Args) :
    ((resolveConfig env cli).isSome = true ↔ cli.videoUrl.isSome = true) ∧
    (∀ c, resolveConfig env cli = some c →
      some c.videoUrl = cli.videoUrl ∧
      (cli.model = none → c.model = env.fasterWhisperModel.getD "small") ∧
      (cli.device = none → c.device = env.fasterWhisperDevice.getD "cpu") ∧
      (cli.computeType = none →
        c.computeType = env.fasterWhisperCompute.getD "int8") ∧
      (cli.beamSize = none → c.beamSize = env.fasterWhisperBeamSize.getD 5) ∧
      (cli.temperature = none →
        c.temperature = env.fasterWhisperTemperature.getD 0) ∧
      (cli.ffmpegBinary = none → c.ffmpegBinary = env.ffmpegBinary.getD "ffmpeg")) := by
  cases hurl : cli.videoUrl with
  | none =>
    constructor
    · simp [resolveConfig, hurl]
    · intro c hc
      rw [resolveConfig, hurl] at hc
      exact Option.noConfusion hc
  | some url =>
    constructor
    · simp [resolveConfig, hurl]
    · intro c hc
      rw [resolveConfig, hurl] at hc
      rcases Option.some.inj hc with rfl
      exact ⟨rfl, fun h => by rw [h]; rfl, fun h => by rw [h]; rfl,
        fun h => by rw [h]; rfl, fun h => by rw [h]; rfl,
        fun h => by rw [h]; rfl, fun h => by rw [h]; rfl⟩

/-- Witness for C8: with an empty environment and only `--video-url`
passed, resolution succeeds and the model flag resolves to the literal
default "small". -/
theorem C8_config_resolution_witness :
    (resolveConfig ⟨none, none, none, none, none, none⟩
        ⟨some "u", none, none, none, none, none, none⟩).isSome = true ∧
    (Config.mk "u" "small" "cpu" "int8" 5 0 "ffmpeg").model =
      (none : Option String).getD "small" :=
  ⟨(C8_config_resolution ⟨none, none, none, none, none, none⟩
      ⟨some "u", none, none, none, none, none, none⟩).1.mpr rfl,
   (((C8_config_resolution ⟨none, none, none, none, none, none⟩
      ⟨some "u", none, none, none, none, none, none⟩).2
      (Config.mk "u" "small" "cpu" "int8" 5 0 "ffmpeg") rfl).2.1) rfl⟩

end TLDW
